import Mathlib

/-!
Verification of the qr-sello visit-logging service (`src/index.js`).

The JavaScript source is shallowly embedded: JSON values become the `Json`
inductive with a `stringify` function modelling `JSON.stringify`; the SQLite
table `scan_logs` becomes a `Store` of `VisitRecord` rows with an
auto-increment counter; each Express route handler becomes a pure function
from the request context (and, where relevant, the injected outcome of the
database read or the mail delivery) to the updated store and the HTTP
response.  JavaScript `x || y` defaulting on possibly-absent strings is
modelled by `jsOrDefault` / `jsOrNull`, which treat the empty string as falsy
exactly as JavaScript does.
-/

namespace QrSello

/-- JavaScript JSON-like values (request bodies, header maps, fingerprints). -/
inductive Json where
  | null : Json
  | bool : Bool → Json
  | num : Int → Json
  | str : String → Json
  | arr : List Json → Json
  | obj : List (String × Json) → Json
deriving Repr, Inhabited

/-- JavaScript truthiness of a JSON value (`value ? a : b`, `value || d`). -/
def Json.truthy : Json → Bool
  | .null => false
  | .bool b => b
  | .num n => n != 0
  | .str s => s != ""
  | .arr _ => true
  | .obj _ => true

/-- Whether a JSON value is an object or an array (the only shapes the
`express.json()` body parser produces in its default strict mode). -/
def Json.isObjOrArr : Json → Bool
  | .arr _ => true
  | .obj _ => true
  | _ => false

/-- Escaping of a single character inside a JSON string literal. -/
def jsonEscChar (c : Char) : List Char :=
  if c = '"' then ['\\', '"']
  else if c = '\\' then ['\\', '\\']
  else if c = '\n' then ['\\', 'n']
  else if c = '\r' then ['\\', 'r']
  else if c = '\t' then ['\\', 't']
  else [c]

/-- Escaping of a JSON string body. -/
def jsonEscape (s : String) : String :=
  ⟨s.data.flatMap jsonEscChar⟩

mutual

/-- Model of `JSON.stringify` on JSON values. -/
def Json.stringify : Json → String
  | .null => "null"
  | .bool true => "true"
  | .bool false => "false"
  | .num n => toString n
  | .str s => "\"" ++ jsonEscape s ++ "\""
  | .arr xs => "[" ++ stringifyArr xs ++ "]"
  | .obj fs => "\x7b" ++ stringifyObj fs ++ "\x7d"

/-- Comma-joined serialization of the elements of a JSON array. -/
def stringifyArr : List Json → String
  | [] => ""
  | [x] => Json.stringify x
  | x :: xs => Json.stringify x ++ "," ++ stringifyArr xs

/-- Comma-joined serialization of the fields of a JSON object. -/
def stringifyObj : List (String × Json) → String
  | [] => ""
  | [(k, v)] => "\"" ++ jsonEscape k ++ "\":" ++ Json.stringify v
  | (k, v) :: fs =>
      "\"" ++ jsonEscape k ++ "\":" ++ Json.stringify v ++ "," ++ stringifyObj fs

end

/-- JavaScript `x || d` on a possibly-absent string, producing a string:
`undefined`/`null` and the empty string fall through to the default. -/
def jsOrDefault (o : Option String) (d : String) : String :=
  match o with
  | none => d
  | some s => if s = "" then d else s

/-- JavaScript `x || null` on a possibly-absent string: `undefined` and the
empty string collapse to `null`. -/
def jsOrNull (o : Option String) : Option String :=
  match o with
  | none => none
  | some s => if s = "" then none else some s

/-- One row of the `scan_logs` table.  `id` is assigned by the store
(`INTEGER PRIMARY KEY AUTOINCREMENT`); `created_at` is `NOT NULL`; every
other column is nullable `TEXT`. -/
structure VisitRecord where
  id : Nat
  created_at : String
  ip : Option String
  ip_raw : Option String
  x_forwarded_for : Option String
  headers : Option String
  user_agent : Option String
  fp_data : Option String
deriving Repr, DecidableEq, Inhabited

/-- The SQLite-backed record store: the rows of `scan_logs` in insertion
order, together with the next auto-increment id. -/
structure Store where
  rows : List VisitRecord
  nextId : Nat
deriving Repr, DecidableEq, Inhabited

/-- Store well-formedness: ids strictly increase in insertion order and are
all below the auto-increment counter — exactly what SQLite's
`AUTOINCREMENT` maintains. -/
def Store.WF (st : Store) : Prop :=
  st.rows.Pairwise (fun a b => a.id < b.id) ∧ ∀ r ∈ st.rows, r.id < st.nextId

instance (st : Store) : Decidable st.WF := by
  unfold Store.WF; infer_instance

/-- `headers || {}` from `logScan`: an absent or falsy header value is
replaced by the empty object. -/
def jsHeadersOrEmpty : Option Json → Json
  | none => Json.obj []
  | some j => if j.truthy then j else Json.obj []

/-- The named arguments of `logScan` in the source. -/
structure LogScanArgs where
  createdAt : Option String
  ip : Option String
  ipRaw : Option String
  xff : Option String
  headers : Option Json
  userAgent : Option String
  fpData : Json
deriving Repr, Inhabited

/-- The row `logScan` binds into its `INSERT` statement, given the current
time `now` (for the `createdAt || new Date().toISOString()` default) and the
id the store will assign. -/
def logScanRecord (now : String) (a : LogScanArgs) (newId : Nat) : VisitRecord :=
  { id := newId
    created_at := jsOrDefault a.createdAt now
    ip := jsOrNull a.ip
    ip_raw := jsOrNull a.ipRaw
    x_forwarded_for := jsOrNull a.xff
    headers := some (Json.stringify (jsHeadersOrEmpty a.headers))
    user_agent := some (jsOrDefault a.userAgent "")
    fp_data := if a.fpData.truthy then some (Json.stringify a.fpData) else none }

/-- `logScan`: build the row and append it to `scan_logs`. -/
def logScan (now : String) (a : LogScanArgs) (st : Store) : Store :=
  { rows := st.rows ++ [logScanRecord now a st.nextId]
    nextId := st.nextId + 1 }

/-- `SELECT * FROM scan_logs ORDER BY id DESC`: rows after `id` descending
(`b.id ≤ a.id` holds between any earlier row `a` and later row `b`). -/
def idGe (a b : VisitRecord) : Prop := b.id ≤ a.id

instance : DecidableRel idGe := fun a b => inferInstanceAs (Decidable (b.id ≤ a.id))

instance : IsTotal VisitRecord idGe := ⟨fun a b => Nat.le_total b.id a.id⟩

instance : IsTrans VisitRecord idGe := ⟨fun _ _ _ h1 h2 => le_trans h2 h1⟩

/-- `listAll`: all rows, ordered by `id` descending
(the query behind `GET /admin/logs.csv`). -/
def Store.listAll (st : Store) : List VisitRecord :=
  List.insertionSort idGe st.rows

/-- `listRecent`: the `ORDER BY id DESC LIMIT n` query behind
`GET /admin/logs`. -/
def Store.listRecent (st : Store) (limit : Nat) : List VisitRecord :=
  st.listAll.take limit

/-- The request context a handler reads: `req.ip`,
`req.socket.remoteAddress` and the header map `req.headers`. -/
structure ReqCtx where
  ip : Option String
  remoteAddress : Option String
  headers : List (String × String)
deriving Repr, DecidableEq, Inhabited

/-- `req.headers[k]`: header lookup, absent when the header was not sent. -/
def headerLookup (hs : List (String × String)) (k : String) : Option String :=
  hs.lookup k

/-- The header map as the JSON object `JSON.stringify(headers)` receives. -/
def headersJson (hs : List (String × String)) : Json :=
  Json.obj (hs.map (fun p => (p.1, Json.str p.2)))

/-- The `logScan` argument object built identically by the `/scan` and
`/scan/fp` handlers, parametrised by the fingerprint payload `fp`
(`null` for `/scan`, `req.body || null` for `/scan/fp`). -/
def requestLogArgs (now : String) (ctx : ReqCtx) (fp : Json) : LogScanArgs :=
  { createdAt := some now
    ip := ctx.ip
    ipRaw := ctx.remoteAddress
    xff := jsOrNull (headerLookup ctx.headers "x-forwarded-for")
    headers := some (headersJson ctx.headers)
    userAgent := some (jsOrDefault (headerLookup ctx.headers "user-agent") "")
    fpData := fp }

/-- The body of an HTTP response the service can produce. -/
inductive Body where
  | empty : Body
  | text : String → Body
  | jsonRows : List VisitRecord → Body
  | file : String → String → String → Body
deriving Repr, DecidableEq, Inhabited

/-- An HTTP response: status code and body. -/
structure Response where
  status : Nat
  body : Body
deriving Repr, DecidableEq, Inhabited

/-- The SMTP transport configuration (present only when both `SMTP_USER` and
`SMTP_PASS` are set; otherwise the mailer is `null`). -/
structure MailerConfig where
  host : String
  port : Nat
  user : String
  password : String
deriving Repr, DecidableEq, Inhabited

/-- The body of the notification mail built by `sendNotificationEmail`. -/
def notificationText (createdAt : String) (ip : Option String) (userAgent : String) : String :=
  String.intercalate "\n"
    [ "Se ha detectado un escaneo del código de seguridad."
    , ""
    , "Fecha/hora (UTC): " ++ createdAt
    , "IP: " ++ jsOrDefault ip "desconocida"
    , "User-Agent: " ++ userAgent
    , ""
    , "Puedes consultar el detalle completo en /admin/logs o descargar /admin/logs.csv." ]

/-- `sendNotificationEmail`: with no mailer it only warns; otherwise it sends
the mail and its callback logs either the delivery error or the message id.
The injected `delivery` outcome models the asynchronous SMTP result.  The
function's only observable effect is this console log — it returns nothing
into the handler. -/
def sendNotificationEmail (mailer : Option MailerConfig)
    (createdAt : String) (ip : Option String) (userAgent : String)
    (delivery : Except String String) : List String :=
  match mailer with
  | none => ["Mailer no configurado; se omite envío de correo."]
  | some _ =>
      match delivery with
      | .error e => ["Error enviando correo de aviso: " ++ e]
      | .ok msgId =>
          ["Correo de aviso enviado: " ++ msgId ++ " / " ++
            notificationText createdAt ip userAgent]

/-- Result of running a handler: the store afterwards, the HTTP response,
and the console lines produced. -/
structure HandlerResult where
  store : Store
  response : Response
  logs : List String
deriving Repr, DecidableEq, Inhabited

/-- The fixed HTML document `GET /scan` sends: confirmation text plus the
fingerprint-collecting script.  The template literal in the source contains
no interpolation. -/
def scanHtml : String :=
  "<!DOCTYPE html>\n<html lang=\"es\">\n<head>\n  <meta charset=\"utf-8\" />\n  <title>Verificación registrada</title>\n  <meta name=\"viewport\" content=\"width=device-width, initial-scale=1\" />\n</head>\n<body style=\"font-family: system-ui, sans-serif; padding: 1.5rem;\">\n  <h1>Verificación registrada</h1>\n  <p>El código ha sido leído correctamente.</p>\n  <p>Puede cerrar esta página.</p>\n\n  <script>\n    (function() \x7b\n      // Fingerprint sencillo del navegador\n      var fp = \x7b\n        userAgent: navigator.userAgent,\n        language: navigator.language,\n        languages: navigator.languages,\n        platform: navigator.platform,\n        screen: \x7b\n          width: window.screen && window.screen.width,\n          height: window.screen && window.screen.height\n        \x7d,\n        window: \x7b\n          innerWidth: window.innerWidth,\n          innerHeight: window.innerHeight\n        \x7d,\n        timezone: (Intl && Intl.DateTimeFormat && Intl.DateTimeFormat().resolvedOptions().timeZone) || null\n      \x7d;\n\n      fetch(\x27/scan/fp\x27, \x7b\n        method: \x27POST\x27,\n        headers: \x7b \x27Content-Type\x27: \x27application/json\x27 \x7d,\n        body: JSON.stringify(fp)\n      \x7d).catch(function(err) \x7b\n        console.error(\x27Error enviando fingerprint\x27, err);\n      \x7d);\n    \x7d)();\n  </script>\n</body>\n</html>"


/-- The `GET /scan` handler: log the visit with no fingerprint, fire the
notification mail, and send the fixed HTML page.  `now` is the value of
`new Date().toISOString()`; `mailer` and `delivery` inject the notifier's
configuration and asynchronous outcome. -/
def scanHandler (now : String) (ctx : ReqCtx) (mailer : Option MailerConfig)
    (delivery : Except String String) (st : Store) : HandlerResult :=
  let userAgent := jsOrDefault (headerLookup ctx.headers "user-agent") ""
  let st2 := logScan now (requestLogArgs now ctx Json.null) st
  let logs := sendNotificationEmail mailer now ctx.ip userAgent delivery
  { store := st2, response := { status := 200, body := Body.text scanHtml }, logs := logs }

/-- The `POST /scan/fp` handler: `req.body || null` becomes the fingerprint
payload, the visit is logged, and a `204` with no body is returned.
`reqBody` is `none` when no body parser populated `req.body`. -/
def scanFpHandler (now : String) (ctx : ReqCtx) (reqBody : Option Json)
    (st : Store) : HandlerResult :=
  let fpPayload : Json :=
    match reqBody with
    | none => Json.null
    | some j => if j.truthy then j else Json.null
  let st2 := logScan now (requestLogArgs now ctx fpPayload) st
  { store := st2, response := { status := 204, body := Body.empty }, logs := [] }

/-- The `GET /admin/logs` handler, as a function of the outcome of
`db.all('SELECT * FROM scan_logs ORDER BY id DESC LIMIT 100', ...)`:
on error a `500` with a plain-text message, otherwise the rows as JSON. -/
def adminLogsHandler (queryResult : Except String (List VisitRecord)) : Response :=
  match queryResult with
  | .error _ => { status := 500, body := Body.text "Error consultando la base de datos" }
  | .ok rows => { status := 200, body := Body.jsonRows rows }

/-- `csvEscape` from the CSV export: `null`/`undefined` becomes `""`, any
other value is quote-wrapped with internal double quotes doubled. -/
def escQ : List Char → List Char
  | [] => []
  | c :: cs => if c = '"' then '"' :: '"' :: escQ cs else c :: escQ cs

/-- String-level quote doubling (`String(value).replace(/"/g, '""')`). -/
def escapeQuotes (s : String) : String := ⟨escQ s.data⟩

/-- `csvEscape` on a nullable string column value. -/
def csvEscape (value : Option String) : String :=
  match value with
  | none => "\"\""
  | some s => "\"" ++ escapeQuotes s ++ "\""

/-- The header cells of the CSV export (the `headers` column is absent). -/
def csvHeaderCells : List String :=
  ["id", "created_at", "ip", "ip_raw", "x_forwarded_for", "user_agent", "fp_data"]

/-- The header string built by the export: the joined cells followed by the
source's `'\\n'` — which, written that way in JavaScript, is the TWO
characters backslash and `n`, not a newline. -/
def csvHeader : String :=
  String.intercalate "," csvHeaderCells ++ "\\n"

/-- The seven escaped cells of one exported row, in header order
(`id` is stringified by `String(value)` inside `csvEscape`). -/
def csvRow (r : VisitRecord) : List String :=
  [ csvEscape (some (toString r.id))
  , csvEscape (some r.created_at)
  , csvEscape r.ip
  , csvEscape r.ip_raw
  , csvEscape r.x_forwarded_for
  , csvEscape r.user_agent
  , csvEscape r.fp_data ]

/-- One exported data row as a comma-joined line. -/
def csvRowLine (r : VisitRecord) : String :=
  String.intercalate "," (csvRow r)

/-- The whole CSV body: header plus the rows joined by the source's
`'\\n'` (again the literal two characters backslash, `n`). -/
def csvDocument (rows : List VisitRecord) : String :=
  csvHeader ++ String.intercalate "\\n" (rows.map csvRowLine)

/-- The `GET /admin/logs.csv` handler as a function of the outcome of
`db.all('SELECT * FROM scan_logs ORDER BY id DESC', ...)`. -/
def adminLogsCsvHandler (queryResult : Except String (List VisitRecord)) : Response :=
  match queryResult with
  | .error _ => { status := 500, body := Body.text "Error consultando la base de datos" }
  | .ok rows =>
      { status := 200
        body := Body.file "scan_logs.csv" "text/csv; charset=utf-8" (csvDocument rows) }

/-- Spec-side inverse of the quote-doubling rule: collapse each doubled
double-quote back to a single one. -/
def unescQ : List Char → List Char
  | [] => []
  | [c] => [c]
  | c :: d :: cs =>
      if c = '"' ∧ d = '"' then '"' :: unescQ cs else c :: unescQ (d :: cs)

/-- Spec-side CSV field unescaping: strip the surrounding quotes, then
collapse doubled double-quotes. -/
def csvUnescape (s : String) : String :=
  ⟨unescQ ((s.data.drop 1).dropLast)⟩

/-- C10: the HTML document returned by `GET /scan` is the single fixed
constant `scanHtml`, with status 200, identical for every request context,
mailer configuration, delivery outcome and store state — no request-derived
data is interpolated into the response body. -/
theorem scan_response_constant (now : String) (ctx : ReqCtx)
    (mailer : Option MailerConfig) (delivery : Except String String) (st : Store) :
    (scanHandler now ctx mailer delivery st).response =
      { status := 200, body := Body.text scanHtml } := rfl

/-- C9: for `GET /scan`, any change of the notifier configuration or of the
delivery outcome (including failures) leaves the HTTP response — and even
the stored rows — unchanged; and `POST /scan/fp` always answers `204` with
an empty body regardless of anything, never invoking the notifier. -/
theorem notifier_failure_leaves_response_unchanged (now : String) (ctx : ReqCtx)
    (st : Store) (m1 m2 : Option MailerConfig) (d1 d2 : Except String String) :
    (scanHandler now ctx m1 d1 st).response = (scanHandler now ctx m2 d2 st).response ∧
    (scanHandler now ctx m1 d1 st).store = (scanHandler now ctx m2 d2 st).store ∧
    ∀ reqBody : Option Json,
      (scanFpHandler now ctx reqBody st).response = { status := 204, body := Body.empty } :=
  ⟨rfl, rfl, fun _ => rfl⟩

/-- C8: a store read failure makes `GET /admin/logs` and
`GET /admin/logs.csv` answer `500` with the plain-text message, and every
`GET /admin/logs` response is either that error response or a `200` carrying
a JSON row list — never a success body alongside an error status. -/
theorem admin_read_failure_handling :
    (∀ e : String, adminLogsHandler (Except.error e) =
      { status := 500, body := Body.text "Error consultando la base de datos" }) ∧
    (∀ e : String, adminLogsCsvHandler (Except.error e) =
      { status := 500, body := Body.text "Error consultando la base de datos" }) ∧
    (∀ q : Except String (List VisitRecord),
      adminLogsHandler q =
        { status := 500, body := Body.text "Error consultando la base de datos" } ∨
      ∃ rows, adminLogsHandler q = { status := 200, body := Body.jsonRows rows }) := by
  refine ⟨fun _ => rfl, fun _ => rfl, fun q => ?_⟩
  cases q with
  | error e => exact Or.inl rfl
  | ok rows => exact Or.inr ⟨rows, rfl⟩

/-- C4: every exported CSV row consists of exactly the seven escaped cells
`id, created_at, ip, ip_raw, x_forwarded_for, user_agent, fp_data` in the
order of the declared header (itself seven cells), the `headers` column is
omitted (the row does not depend on it), and a null value renders as the
empty quoted field. -/
theorem csv_row_seven_fields (r : VisitRecord) :
    csvRow r =
      [ csvEscape (some (toString r.id)), csvEscape (some r.created_at)
      , csvEscape r.ip, csvEscape r.ip_raw, csvEscape r.x_forwarded_for
      , csvEscape r.user_agent, csvEscape r.fp_data ] ∧
    (csvRow r).length = 7 ∧
    csvHeaderCells.length = 7 ∧
    (∀ h : Option String, csvRow { r with headers := h } = csvRow r) ∧
    csvEscape none = "\"\"" :=
  ⟨rfl, rfl, rfl, fun _ => rfl, rfl⟩

/-- C3 counter-evidence: the source joins the CSV with the JavaScript
literal `'\\n'`, i.e. the two characters backslash and `n`, not a newline.
With zero records the body is the header followed by those two characters —
not exactly the header line — and a one-row export contains no newline
character at all, so rows are not newline-separated. -/
theorem csv_export_separator_bug :
    csvDocument [] =
      "id,created_at,ip,ip_raw,x_forwarded_for,user_agent,fp_data" ++ "\\n" ∧
    csvDocument [] ≠ "id,created_at,ip,ip_raw,x_forwarded_for,user_agent,fp_data" ∧
    ("\\n" : String) ≠ "\n" ∧
    ((csvDocument [{ id := 7, created_at := "2024-01-01T00:00:00.000Z", ip := some "1.2.3.4"
                   , ip_raw := some "1.2.3.4", x_forwarded_for := none, headers := none
                   , user_agent := some "UA", fp_data := none }]).data.all
      (fun c => c != '\n')) = true :=
  ⟨rfl, by decide, by decide, by decide⟩

/-- C7: every `logScan` invocation appends exactly one row whose
`created_at` is the supplied timestamp or, when absent, the current time;
whose `headers` column is non-null and holds the serialized header object
(the empty-object serialization when no headers are given); and whose
`user_agent` is non-null, defaulting to the empty string when absent. -/
theorem logScan_field_invariants (now : String) (a : LogScanArgs) (st : Store) :
    (logScan now a st).rows = st.rows ++ [logScanRecord now a st.nextId] ∧
    (logScanRecord now a st.nextId).created_at = jsOrDefault a.createdAt now ∧
    (∀ d : String, jsOrDefault none d = d) ∧
    (logScanRecord now a st.nextId).headers =
      some (Json.stringify (jsHeadersOrEmpty a.headers)) ∧
    (logScanRecord now a st.nextId).headers ≠ none ∧
    jsHeadersOrEmpty none = Json.obj [] ∧
    Json.stringify (Json.obj []) = "\x7b\x7d" ∧
    (logScanRecord now a st.nextId).user_agent = some (jsOrDefault a.userAgent "") ∧
    (logScanRecord now a st.nextId).user_agent ≠ none ∧
    jsOrDefault none "" = "" :=
  ⟨rfl, rfl, fun _ => rfl, rfl, by simp [logScanRecord], rfl, rfl, rfl,
    by simp [logScanRecord], rfl⟩

lemma truthy_of_isObjOrArr {b : Json} (hb : b.isObjOrArr = true) :
    b.truthy = true := by
  cases b <;> simp [Json.isObjOrArr] at hb <;> rfl

/-- C1: a `POST /scan/fp` request whose parsed JSON body is an object or an
array (the only shapes the strict `express.json()` parser produces)
persists exactly one new row, and that row's `fp_data` equals the
JSON-serialization of the submitted body. -/
theorem scanFp_persists_fingerprint (now : String) (ctx : ReqCtx) (b : Json)
    (st : Store) (hb : b.isObjOrArr = true) :
    (scanFpHandler now ctx (some b) st).store.rows =
      st.rows ++ [logScanRecord now (requestLogArgs now ctx b) st.nextId] ∧
    (logScanRecord now (requestLogArgs now ctx b) st.nextId).fp_data =
      some (Json.stringify b) := by
  have ht : b.truthy = true := truthy_of_isObjOrArr hb
  constructor
  · show (logScan now (requestLogArgs now ctx (if b.truthy then b else Json.null)) st).rows = _
    rw [ht]
    rfl
  · show (if (requestLogArgs now ctx b).fpData.truthy then
        some (Json.stringify (requestLogArgs now ctx b).fpData) else none) = _
    show (if b.truthy then some (Json.stringify b) else none) = _
    rw [ht]
    simp

/-- C1 witness: the theorem applied to the concrete body
`{"language":"en"}` on an empty store. -/
theorem scanFp_persists_fingerprint_witness :
    (scanFpHandler "2024-01-01T00:00:00.000Z"
        { ip := some "1.2.3.4", remoteAddress := some "9.9.9.9"
        , headers := [("user-agent", "UA-X")] }
        (some (Json.obj [("language", Json.str "en")]))
        { rows := [], nextId := 1 }).store.rows =
      [] ++ [logScanRecord "2024-01-01T00:00:00.000Z"
        (requestLogArgs "2024-01-01T00:00:00.000Z"
          { ip := some "1.2.3.4", remoteAddress := some "9.9.9.9"
          , headers := [("user-agent", "UA-X")] }
          (Json.obj [("language", Json.str "en")])) 1] ∧
    (logScanRecord "2024-01-01T00:00:00.000Z"
      (requestLogArgs "2024-01-01T00:00:00.000Z"
        { ip := some "1.2.3.4", remoteAddress := some "9.9.9.9"
        , headers := [("user-agent", "UA-X")] }
        (Json.obj [("language", Json.str "en")])) 1).fp_data =
      some (Json.stringify (Json.obj [("language", Json.str "en")])) :=
  scanFp_persists_fingerprint "2024-01-01T00:00:00.000Z"
    { ip := some "1.2.3.4", remoteAddress := some "9.9.9.9"
    , headers := [("user-agent", "UA-X")] }
    (Json.obj [("language", Json.str "en")])
    { rows := [], nextId := 1 } (by decide)

/-- C2: on a well-formed store every `GET /scan` request persists exactly
one new row, that row's `fp_data` is null, and its `id` is strictly greater
than the id of every previously inserted record. -/
theorem scan_persists_single_record (now : String) (ctx : ReqCtx)
    (mailer : Option MailerConfig) (delivery : Except String String)
    (st : Store) (h : st.WF) :
    (scanHandler now ctx mailer delivery st).store.rows =
      st.rows ++ [logScanRecord now (requestLogArgs now ctx Json.null) st.nextId] ∧
    (logScanRecord now (requestLogArgs now ctx Json.null) st.nextId).fp_data = none ∧
    ∀ p ∈ st.rows,
      p.id < (logScanRecord now (requestLogArgs now ctx Json.null) st.nextId).id := by
  refine ⟨rfl, rfl, ?_⟩
  intro p hp
  exact h.2 p hp

/-- C2 witness: the theorem applied to a concrete store holding one earlier
record with id 3 and auto-increment counter 5. -/
theorem scan_persists_single_record_witness :
    (scanHandler "2024-01-01T00:00:00.000Z"
        { ip := some "1.2.3.4", remoteAddress := some "9.9.9.9"
        , headers := [("user-agent", "UA-X")] }
        none (Except.error "boom")
        { rows := [{ id := 3, created_at := "t0", ip := none, ip_raw := none
                   , x_forwarded_for := none, headers := none, user_agent := none
                   , fp_data := none }], nextId := 5 }).store.rows =
      [{ id := 3, created_at := "t0", ip := none, ip_raw := none
       , x_forwarded_for := none, headers := none, user_agent := none
       , fp_data := none }] ++
        [logScanRecord "2024-01-01T00:00:00.000Z"
          (requestLogArgs "2024-01-01T00:00:00.000Z"
            { ip := some "1.2.3.4", remoteAddress := some "9.9.9.9"
            , headers := [("user-agent", "UA-X")] } Json.null) 5] ∧
    (logScanRecord "2024-01-01T00:00:00.000Z"
      (requestLogArgs "2024-01-01T00:00:00.000Z"
        { ip := some "1.2.3.4", remoteAddress := some "9.9.9.9"
        , headers := [("user-agent", "UA-X")] } Json.null) 5).fp_data = none ∧
    ∀ p ∈ [{ id := 3, created_at := "t0", ip := none, ip_raw := none
           , x_forwarded_for := none, headers := none, user_agent := none
           , fp_data := none : VisitRecord }],
      p.id < (logScanRecord "2024-01-01T00:00:00.000Z"
        (requestLogArgs "2024-01-01T00:00:00.000Z"
          { ip := some "1.2.3.4", remoteAddress := some "9.9.9.9"
          , headers := [("user-agent", "UA-X")] } Json.null) 5).id :=
  scan_persists_single_record "2024-01-01T00:00:00.000Z"
    { ip := some "1.2.3.4", remoteAddress := some "9.9.9.9"
    , headers := [("user-agent", "UA-X")] }
    none (Except.error "boom")
    { rows := [{ id := 3, created_at := "t0", ip := none, ip_raw := none
               , x_forwarded_for := none, headers := none, user_agent := none
               , fp_data := none }], nextId := 5 } (by decide)

lemma escQ_eq_nil {l : List Char} (h : escQ l = []) : l = [] := by
  cases l with
  | nil => rfl
  | cons c cs =>
    exfalso
    by_cases hc : c = '"' <;> simp [escQ, hc] at h

lemma unescQ_escQ (l : List Char) : unescQ (escQ l) = l := by
  induction l with
  | nil => simp [escQ, unescQ]
  | cons c cs ih =>
    by_cases hc : c = '"'
    · subst hc
      rw [show escQ ('"' :: cs) = '"' :: '"' :: escQ cs from by simp [escQ]]
      rw [show unescQ ('"' :: '"' :: escQ cs) = '"' :: unescQ (escQ cs) from by
        simp [unescQ]]
      rw [ih]
    · rw [show escQ (c :: cs) = c :: escQ cs from by simp [escQ, hc]]
      cases hcs : escQ cs with
      | nil =>
        have h0 : cs = [] := escQ_eq_nil hcs
        subst h0
        simp [escQ, unescQ]
      | cons d rest =>
        rw [show unescQ (c :: d :: rest) = c :: unescQ (d :: rest) from by
          simp [unescQ, hc]]
        rw [← hcs, ih]

/-- C5: CSV escaping round-trips — for every present field value, stripping
the surrounding quotes from the emitted field and collapsing each doubled
double-quote yields the original value. -/
theorem csvEscape_roundtrip (s : String) :
    csvUnescape (csvEscape (some s)) = s := by
  apply String.ext
  show unescQ (((csvEscape (some s)).data.drop 1).dropLast) = s.data
  have hd : (csvEscape (some s)).data = '"' :: (escQ s.data ++ ['"']) := by
    show ("\"" ++ escapeQuotes s ++ "\"").data = _
    rw [String.data_append, String.data_append]
    rfl
  rw [hd]
  rw [show ('"' :: (escQ s.data ++ ['"'])).drop 1 = escQ s.data ++ ['"'] from rfl]
  rw [List.dropLast_concat]
  exact unescQ_escQ s.data

lemma listAll_pairwise_strict_desc (st : Store) (h : st.WF) :
    st.listAll.Pairwise (fun a b => b.id < a.id) := by
  have hs : List.Sorted idGe st.listAll :=
    List.sorted_insertionSort idGe st.rows
  have hn : (st.rows.map VisitRecord.id).Nodup := by
    rw [List.Nodup, List.pairwise_map]
    exact h.1.imp (fun hlt => Nat.ne_of_lt hlt)
  have hperm : st.listAll.Perm st.rows := List.perm_insertionSort idGe st.rows
  have hn2 : (st.listAll.map VisitRecord.id).Nodup :=
    ((hperm.map VisitRecord.id).nodup_iff).mpr hn
  have hne : st.listAll.Pairwise (fun a b => a.id ≠ b.id) := by
    rw [List.Nodup, List.pairwise_map] at hn2
    exact hn2
  have hand := List.Pairwise.and hs hne
  exact hand.imp (fun hab => lt_of_le_of_ne hab.1 (Ne.symm hab.2))

/-- C6: on a well-formed store the query behind `GET /admin/logs`,
`listRecent 100`, returns at most 100 rows, and the returned rows are in
strictly descending `id` order. -/
theorem listRecent_bounded_and_desc (st : Store) (h : st.WF) :
    (st.listRecent 100).length ≤ 100 ∧
    (st.listRecent 100).Pairwise (fun a b => b.id < a.id) := by
  constructor
  · exact List.length_take_le 100 _
  · exact (listAll_pairwise_strict_desc st h).sublist (List.take_sublist 100 _)

/-- C6 witness: the theorem applied to a concrete well-formed store with
two rows inserted with ids 1 and 2. -/
theorem listRecent_bounded_and_desc_witness :
    ((Store.listRecent
      { rows := [ { id := 1, created_at := "t1", ip := none, ip_raw := none
                  , x_forwarded_for := none, headers := none, user_agent := none
                  , fp_data := none }
                , { id := 2, created_at := "t2", ip := none, ip_raw := none
                  , x_forwarded_for := none, headers := none, user_agent := none
                  , fp_data := none } ], nextId := 3 } 100).length ≤ 100) ∧
    (Store.listRecent
      { rows := [ { id := 1, created_at := "t1", ip := none, ip_raw := none
                  , x_forwarded_for := none, headers := none, user_agent := none
                  , fp_data := none }
                , { id := 2, created_at := "t2", ip := none, ip_raw := none
                  , x_forwarded_for := none, headers := none, user_agent := none
                  , fp_data := none } ], nextId := 3 } 100).Pairwise
      (fun a b => b.id < a.id) :=
  listRecent_bounded_and_desc
    { rows := [ { id := 1, created_at := "t1", ip := none, ip_raw := none
                , x_forwarded_for := none, headers := none, user_agent := none
                , fp_data := none }
              , { id := 2, created_at := "t2", ip := none, ip_raw := none
                , x_forwarded_for := none, headers := none, user_agent := none
                , fp_data := none } ], nextId := 3 } (by decide)

end QrSello
